import Mathlib

/-
Verification of the design-system generator (scripts/generate-design-system.py).

The script is a deterministic lookup-and-render pipeline: static tables
(style presets, color palettes, radius/shadow/typography/spacing scales),
a style resolver, a token builder, and renderers.  This development embeds
the tables and functions shallowly: Python dicts become ordered association
lists with first-match lookup, fallible dict/index accesses return Option,
and Python numbers (the spacing scale holds the int 1 and the floats 0.25
and 0.5) become an explicit int/float sum type with exact quarter-valued
floats and a faithful string rendering.
-/

set_option maxHeartbeats 1000000

/-- First-match lookup in an ordered association list; models Python dict
subscripting `d[k]` (None-free: a missing key is `none`). -/
def dlookup {α : Type} : List (String × α) → String → Option α
  | [], _ => none
  | p :: rest, key => if p.1 = key then some p.2 else dlookup rest key

/-- A Python number as it occurs in this script: either an int literal or a
float whose value is an exact multiple of 1/4 (the script only ever holds
0.25, 0.5 and 1 as scale factors and multiplies them by small ints, so every
float that arises is an exact multiple of 1/4).  `float m` denotes m/4. -/
inductive PyNum where
  | int (n : Int)
  | float (quarters : Int)
  deriving DecidableEq

/-- Python multiplication `scale * k` with an int `k`: int stays int, float
stays float. -/
def PyNum.mulNat : PyNum → Nat → PyNum
  | .int n, k => .int (n * k)
  | .float m, k => .float (m * k)

/-- The string Python's f-string produces for the number: ints print bare,
floats print with a decimal part (e.g. 4.0 prints as "4.0", 0.5 as "0.5"). -/
def PyNum.toStr : PyNum → String
  | .int n => toString n
  | .float m =>
      toString (m / 4) ++ "." ++
        (if m % 4 = 0 then "0" else if m % 4 = 1 then "25" else if m % 4 = 2 then "5" else "75")

/-- Color token definition (dataclass ColorToken). -/
structure ColorToken where
  name : String
  value : String
  type : String
  variants : List (String × String)
  deriving DecidableEq

/-- Font token definition (dataclass FontToken).  The `sizes` table holds,
for each size key, the [font-size, line-height] pair list exactly as the
typography table stores it. -/
structure FontToken where
  name : String
  family : String
  weights : List Nat
  sizes : List (String × List String)
  line_heights : List (String × String)
  deriving DecidableEq

/-- Spacing token definition (dataclass SpacingToken). -/
structure SpacingToken where
  scale_factor : PyNum
  values : List (String × String)
  deriving DecidableEq

/-- Complete design system (dataclass DesignSystem). -/
structure DesignSystem where
  colors : List ColorToken
  fonts : List FontToken
  spacing : SpacingToken
  radius : List (String × String)
  shadows : List (String × String)
  breakpoints : List (String × String)
  deriving DecidableEq

/-- A style preset record; fields mirror the keys of the DESIGN_STYLES
entries.  `Option` models Python's `style.get(key, default)` access: a
`none` field is an absent key. -/
structure StyleDict where
  description : Option String := none
  primary_color : Option String := none
  accent_color : Option String := none
  border_radius : Option String := none
  typography : Option String := none
  spacing : Option String := none
  shadows : Option String := none
  deriving DecidableEq

def ecommerce_style : StyleDict :=
  { description := some "Modern e-commerce with clean aesthetics"
    primary_color := some "blue", accent_color := some "orange"
    border_radius := some "rounded", typography := some "sans"
    spacing := some "comfortable", shadows := some "subtle" }

def saas_style : StyleDict :=
  { description := some "Professional SaaS with trust-building design"
    primary_color := some "indigo", accent_color := some "purple"
    border_radius := some "medium", typography := some "sans"
    spacing := some "comfortable", shadows := some "soft" }

def social_style : StyleDict :=
  { description := some "Vibrant social platform with engaging UI"
    primary_color := some "pink", accent_color := some "purple"
    border_radius := some "full", typography := some "sans"
    spacing := some "compact", shadows := some "colorful" }

def finance_style : StyleDict :=
  { description := some "Trustworthy finance with conservative design"
    primary_color := some "slate", accent_color := some "emerald"
    border_radius := some "subtle", typography := some "sans"
    spacing := some "spacious", shadows := some "minimal" }

def healthcare_style : StyleDict :=
  { description := some "Clean healthcare design with calming colors"
    primary_color := some "teal", accent_color := some "cyan"
    border_radius := some "medium", typography := some "sans"
    spacing := some "comfortable", shadows := some "soft" }

def education_style : StyleDict :=
  { description := some "Friendly education platform with playful elements"
    primary_color := some "yellow", accent_color := some "blue"
    border_radius := some "rounded", typography := some "friendly"
    spacing := some "comfortable", shadows := some "playful" }

/-- Predefined design style recommendations (DESIGN_STYLES). -/
def DESIGN_STYLES : List (String × StyleDict) :=
  [("ecommerce", ecommerce_style), ("saas", saas_style), ("social", social_style),
   ("finance", finance_style), ("healthcare", healthcare_style), ("education", education_style)]

def slate_palette : List (String × String) :=
  [("50", "#f8fafc"), ("100", "#f1f5f9"), ("200", "#e2e8f0"), ("300", "#cbd5e1"),
   ("400", "#94a3b8"), ("500", "#64748b"), ("600", "#475569"), ("700", "#334155"),
   ("800", "#1e293b"), ("900", "#0f172a"), ("950", "#020617")]

def gray_palette : List (String × String) :=
  [("50", "#f9fafb"), ("100", "#f3f4f6"), ("200", "#e5e7eb"), ("300", "#d1d5db"),
   ("400", "#9ca3af"), ("500", "#6b7280"), ("600", "#4b5563"), ("700", "#374151"),
   ("800", "#1f2937"), ("900", "#111827"), ("950", "#030712")]

def blue_palette : List (String × String) :=
  [("50", "#eff6ff"), ("100", "#dbeafe"), ("200", "#bfdbfe"), ("300", "#93c5fd"),
   ("400", "#60a5fa"), ("500", "#3b82f6"), ("600", "#2563eb"), ("700", "#1d4ed8"),
   ("800", "#1e40af"), ("900", "#1e3a8a"), ("950", "#172554")]

def indigo_palette : List (String × String) :=
  [("50", "#eef2ff"), ("100", "#e0e7ff"), ("200", "#c7d2fe"), ("300", "#a5b4fc"),
   ("400", "#818cf8"), ("500", "#6366f1"), ("600", "#4f46e5"), ("700", "#4338ca"),
   ("800", "#3730a3"), ("900", "#312e81"), ("950", "#1e1b4b")]

def purple_palette : List (String × String) :=
  [("50", "#faf5ff"), ("100", "#f3e8ff"), ("200", "#e9d5ff"), ("300", "#d8b4fe"),
   ("400", "#c084fc"), ("500", "#a855f7"), ("600", "#9333ea"), ("700", "#7e22ce"),
   ("800", "#6b21a8"), ("900", "#581c87"), ("950", "#3b0764")]

def pink_palette : List (String × String) :=
  [("50", "#fdf2f8"), ("100", "#fce7f3"), ("200", "#fbcfe8"), ("300", "#f9a8d4"),
   ("400", "#f472b6"), ("500", "#ec4899"), ("600", "#db2777"), ("700", "#be185d"),
   ("800", "#9d174d"), ("900", "#831843"), ("950", "#500724")]

def red_palette : List (String × String) :=
  [("50", "#fef2f2"), ("100", "#fee2e2"), ("200", "#fecaca"), ("300", "#fca5a5"),
   ("400", "#f87171"), ("500", "#ef4444"), ("600", "#dc2626"), ("700", "#b91c1c"),
   ("800", "#991b1b"), ("900", "#7f1d1d"), ("950", "#450a0a")]

def orange_palette : List (String × String) :=
  [("50", "#fff7ed"), ("100", "#ffedd5"), ("200", "#fed7aa"), ("300", "#fdba74"),
   ("400", "#fb923c"), ("500", "#f97316"), ("600", "#ea580c"), ("700", "#c2410c"),
   ("800", "#9a3412"), ("900", "#7c2d12"), ("950", "#431407")]

def yellow_palette : List (String × String) :=
  [("50", "#fefce8"), ("100", "#fef9c3"), ("200", "#fef08a"), ("300", "#fde047"),
   ("400", "#facc15"), ("500", "#eab308"), ("600", "#ca8a04"), ("700", "#a16207"),
   ("800", "#854d0e"), ("900", "#713f12"), ("950", "#422006")]

def green_palette : List (String × String) :=
  [("50", "#f0fdf4"), ("100", "#dcfce7"), ("200", "#bbf7d0"), ("300", "#86efac"),
   ("400", "#4ade80"), ("500", "#22c55e"), ("600", "#16a34a"), ("700", "#15803d"),
   ("800", "#166534"), ("900", "#14532d"), ("950", "#052e16")]

def emerald_palette : List (String × String) :=
  [("50", "#ecfdf5"), ("100", "#d1fae5"), ("200", "#a7f3d0"), ("300", "#6ee7b7"),
   ("400", "#34d399"), ("500", "#10b981"), ("600", "#059669"), ("700", "#047857"),
   ("800", "#065f46"), ("900", "#064e3b"), ("950", "#022c22")]

def teal_palette : List (String × String) :=
  [("50", "#f0fdfa"), ("100", "#ccfbf1"), ("200", "#99f6e4"), ("300", "#5eead4"),
   ("400", "#2dd4bf"), ("500", "#14b8a6"), ("600", "#0d9488"), ("700", "#0f766e"),
   ("800", "#115e59"), ("900", "#134e4a"), ("950", "#042f2e")]

def cyan_palette : List (String × String) :=
  [("50", "#ecfeff"), ("100", "#cffafe"), ("200", "#a5f3fc"), ("300", "#67e8f9"),
   ("400", "#22d3ee"), ("500", "#06b6d4"), ("600", "#0891b2"), ("700", "#0e7490"),
   ("800", "#155e75"), ("900", "#164e63"), ("950", "#083344")]

/-- Color palettes (COLOR_PALETTES), Tailwind-inspired, in declaration order. -/
def COLOR_PALETTES : List (String × List (String × String)) :=
  [("slate", slate_palette), ("gray", gray_palette), ("blue", blue_palette),
   ("indigo", indigo_palette), ("purple", purple_palette), ("pink", pink_palette),
   ("red", red_palette), ("orange", orange_palette), ("yellow", yellow_palette),
   ("green", green_palette), ("emerald", emerald_palette), ("teal", teal_palette),
   ("cyan", cyan_palette)]

/-- The 11 shade keys every palette declares, in declaration order. -/
def shade_keys : List String :=
  ["50", "100", "200", "300", "400", "500", "600", "700", "800", "900", "950"]

/-- Border radius scales (BORDER_RADIUS). -/
def BORDER_RADIUS : List (String × List (String × String)) :=
  [("none", [("none", "0px")]),
   ("subtle", [("sm", "0.125rem"), ("DEFAULT", "0.25rem"), ("md", "0.375rem"),
               ("lg", "0.5rem"), ("xl", "0.75rem")]),
   ("rounded", [("sm", "0.125rem"), ("DEFAULT", "0.375rem"), ("md", "0.5rem"),
                ("lg", "0.75rem"), ("xl", "1rem"), ("2xl", "1.5rem")]),
   ("medium", [("sm", "0.25rem"), ("DEFAULT", "0.5rem"), ("md", "0.75rem"),
               ("lg", "1rem"), ("xl", "1.5rem"), ("2xl", "2rem")]),
   ("full", [("sm", "9999px"), ("DEFAULT", "9999px"), ("md", "9999px"),
             ("lg", "9999px"), ("xl", "9999px"), ("full", "9999px")])]

/-- Shadow scales (SHADOWS). -/
def SHADOWS : List (String × List (String × String)) :=
  [("minimal",
    [("xs", "0 1px 2px 0 rgb(0 0 0 / 0.05)"),
     ("sm", "0 1px 3px 0 rgb(0 0 0 / 0.1), 0 1px 2px -1px rgb(0 0 0 / 0.1)")]),
   ("subtle",
    [("DEFAULT", "0 1px 3px 0 rgb(0 0 0 / 0.1), 0 1px 2px -1px rgb(0 0 0 / 0.1)"),
     ("sm", "0 1px 2px 0 rgb(0 0 0 / 0.05)"),
     ("md", "0 4px 6px -1px rgb(0 0 0 / 0.1), 0 2px 4px -2px rgb(0 0 0 / 0.1)")]),
   ("soft",
    [("DEFAULT", "0 4px 6px -1px rgb(0 0 0 / 0.1), 0 2px 4px -2px rgb(0 0 0 / 0.1)"),
     ("md", "0 10px 15px -3px rgb(0 0 0 / 0.1), 0 4px 6px -4px rgb(0 0 0 / 0.1)"),
     ("lg", "0 20px 25px -5px rgb(0 0 0 / 0.1), 0 8px 10px -6px rgb(0 0 0 / 0.1)")]),
   ("colorful",
    [("DEFAULT", "0 10px 15px -3px rgb(0 0 0 / 0.1), 0 4px 6px -4px rgb(0 0 0 / 0.1)"),
     ("lg", "0 25px 50px -12px rgb(0 0 0 / 0.25)"),
     ("color", "0 20px 25px -5px rgb(0 0 0 / 0.1), 0 8px 10px -6px rgb(0 0 0 / 0.1)")]),
   ("playful",
    [("DEFAULT", "0 4px 6px -1px rgb(0 0 0 / 0.1), 0 2px 4px -2px rgb(0 0 0 / 0.1)"),
     ("lg", "0 20px 25px -5px rgb(0 0 0 / 0.1), 0 8px 10px -6px rgb(0 0 0 / 0.1)"),
     ("xl", "0 25px 50px -12px rgb(0 0 0 / 0.25)")])]

/-- A value of a typography table entry: either a list of family names or a
size table mapping a size key to its [font-size, line-height] pair. -/
inductive TypoVal where
  | strs (l : List String)
  | table (t : List (String × List String))
  deriving DecidableEq

/-- Reads a family-name list out of a typography entry value. -/
def TypoVal.asStrs : TypoVal → Option (List String)
  | .strs l => some l
  | _ => none

/-- Reads a size table out of a typography entry value. -/
def TypoVal.asTable : TypoVal → Option (List (String × List String))
  | .table t => some t
  | _ => none

def sans_sizes : List (String × List String) :=
  [("xs", ["0.75rem", "1rem"]), ("sm", ["0.875rem", "1.25rem"]),
   ("base", ["1rem", "1.5rem"]), ("lg", ["1.125rem", "1.75rem"]),
   ("xl", ["1.25rem", "1.75rem"]), ("2xl", ["1.5rem", "2rem"]),
   ("3xl", ["1.875rem", "2.25rem"]), ("4xl", ["2.25rem", "2.5rem"])]

def friendly_sizes : List (String × List String) :=
  [("xs", ["0.75rem", "1rem"]), ("sm", ["0.875rem", "1.25rem"]),
   ("base", ["1rem", "1.5rem"]), ("lg", ["1.125rem", "1.75rem"]),
   ("xl", ["1.25rem", "1.75rem"]), ("2xl", ["1.5rem", "2rem"]),
   ("3xl", ["1.875rem", "2.25rem"]), ("4xl", ["2.25rem", "2.5rem"])]

/-- The "sans" typography entry, as the key-value dict it is in the source:
it has exactly the keys "family" and "sizes". -/
def sans_typography : List (String × TypoVal) :=
  [("family", .strs ["Inter", "system-ui", "sans-serif"]), ("sizes", .table sans_sizes)]

/-- The "friendly" typography entry; keys "family" and "sizes" only. -/
def friendly_typography : List (String × TypoVal) :=
  [("family", .strs ["Nunito", "system-ui", "sans-serif"]), ("sizes", .table friendly_sizes)]

/-- Typography scales (TYPOGRAPHY). -/
def TYPOGRAPHY : List (String × List (String × TypoVal)) :=
  [("sans", sans_typography), ("friendly", friendly_typography)]

/-- A spacing scale entry: "scale" and "base" keys of the SPACING dicts. -/
structure SpacingEntry where
  scale : PyNum
  base : String
  deriving DecidableEq

/-- Spacing scales (SPACING); "compact" and "comfortable" hold float scales
(0.25 and 0.5, i.e. 1 and 2 quarters), "spacious" holds the int 1. -/
def SPACING : List (String × SpacingEntry) :=
  [("compact", ⟨.float 1, "0.25rem"⟩),
   ("comfortable", ⟨.float 2, "0.5rem"⟩),
   ("spacious", ⟨.int 1, "1rem"⟩)]

/-- A JSON value, as produced by asdict serialization and reread by a JSON
parser; numbers carry the int/float distinction Python preserves. -/
inductive Json where
  | null : Json
  | bool (b : Bool) : Json
  | num (v : PyNum) : Json
  | str (s : String) : Json
  | arr (items : List Json) : Json
  | obj (fields : List (String × Json)) : Json

/-- The loaded-assets mapping: the three documents load_assets returns
(empty objects when the files are absent or unparseable). -/
structure Assets where
  colors : Json
  fonts : Json
  styles : Json

/-- The assets mapping load_assets returns when nothing is present. -/
def emptyAssets : Assets := ⟨Json.obj [], Json.obj [], Json.obj []⟩

/-- Python str.lower as used on the product-type key: lowercases every
character (the preset keys are plain ASCII). -/
def str_lower (s : String) : String := String.mk (s.data.map Char.toLower)

/-- Style resolver (recommend_design_style): if the product type is truthy
(present and non-empty) and its lowercase form is a key of DESIGN_STYLES,
return that preset; otherwise return the preset registered under "saas". -/
def recommend_design_style (product_type : Option String) (assets : Assets) : StyleDict :=
  match product_type with
  | some s =>
      if s = "" then saas_style
      else
        match dlookup DESIGN_STYLES (str_lower s) with
        | some style => style
        | none => saas_style
  | none => saas_style

/-- Token builder (generate_design_system).  Every dict subscript of the
source is a `dlookup` match, in the source's evaluation order; a missing key
(Python KeyError / IndexError) yields `none`.  The assets argument is
accepted but, as in the source, never read. -/
def generate_design_system (style : StyleDict) (assets : Assets) : Option DesignSystem :=
  let primary_color_name := style.primary_color.getD "indigo"
  let accent_color_name := style.accent_color.getD "purple"
  let radius_type := style.border_radius.getD "medium"
  let shadow_type := style.shadows.getD "soft"
  let typography_type := style.typography.getD "sans"
  let spacing_type := style.spacing.getD "comfortable"
  match dlookup COLOR_PALETTES primary_color_name with
  | none => none
  | some primaryPal =>
  match dlookup primaryPal "500" with
  | none => none
  | some primary500 =>
  match dlookup COLOR_PALETTES accent_color_name with
  | none => none
  | some accentPal =>
  match dlookup accentPal "500" with
  | none => none
  | some accent500 =>
  match dlookup COLOR_PALETTES "slate" with
  | none => none
  | some slatePal =>
  match dlookup slatePal "500" with
  | none => none
  | some slate500 =>
  match dlookup COLOR_PALETTES "emerald" with
  | none => none
  | some emeraldPal =>
  match dlookup emeraldPal "500" with
  | none => none
  | some emerald500 =>
  match dlookup COLOR_PALETTES "yellow" with
  | none => none
  | some yellowPal =>
  match dlookup yellowPal "500" with
  | none => none
  | some yellow500 =>
  match dlookup COLOR_PALETTES "red" with
  | none => none
  | some redPal =>
  match dlookup redPal "500" with
  | none => none
  | some red500 =>
  let colors := [
    ColorToken.mk "primary" primary500 "primary" primaryPal,
    ColorToken.mk "accent" accent500 "accent" accentPal,
    ColorToken.mk "neutral" slate500 "neutral" slatePal,
    ColorToken.mk "success" emerald500 "semantic" emeraldPal,
    ColorToken.mk "warning" yellow500 "semantic" yellowPal,
    ColorToken.mk "error" red500 "semantic" redPal]
  match dlookup TYPOGRAPHY typography_type with
  | none => none
  | some typography =>
  match dlookup typography "family" with
  | none => none
  | some familyVal =>
  match familyVal.asStrs with
  | none => none
  | some familyList =>
  match familyList.head? with
  | none => none
  | some family0 =>
  match dlookup typography "sizes" with
  | none => none
  | some sizesVal =>
  match sizesVal.asTable with
  | none => none
  | some sizes =>
  let fonts := [
    FontToken.mk "sans" family0 [300, 400, 500, 600, 700] sizes
      [("tight", "1.25"), ("normal", "1.5"), ("relaxed", "1.75")]]
  match dlookup SPACING spacing_type with
  | none => none
  | some spacing_config =>
  let spacing := SpacingToken.mk spacing_config.scale
    [("0", "0"), ("px", "1px"), ("0.5", spacing_config.base),
     ("1", spacing_config.scale.toStr ++ "rem"),
     ("2", (spacing_config.scale.mulNat 2).toStr ++ "rem"),
     ("3", (spacing_config.scale.mulNat 3).toStr ++ "rem"),
     ("4", (spacing_config.scale.mulNat 4).toStr ++ "rem"),
     ("5", (spacing_config.scale.mulNat 5).toStr ++ "rem"),
     ("6", (spacing_config.scale.mulNat 6).toStr ++ "rem"),
     ("8", (spacing_config.scale.mulNat 8).toStr ++ "rem"),
     ("10", (spacing_config.scale.mulNat 10).toStr ++ "rem"),
     ("12", (spacing_config.scale.mulNat 12).toStr ++ "rem"),
     ("16", (spacing_config.scale.mulNat 16).toStr ++ "rem"),
     ("20", (spacing_config.scale.mulNat 20).toStr ++ "rem"),
     ("24", (spacing_config.scale.mulNat 24).toStr ++ "rem")]
  match dlookup BORDER_RADIUS radius_type with
  | none => none
  | some radius =>
  match dlookup SHADOWS shadow_type with
  | none => none
  | some shadows =>
  let breakpoints := [("sm", "640px"), ("md", "768px"), ("lg", "1024px"),
                      ("xl", "1280px"), ("2xl", "1536px")]
  some (DesignSystem.mk colors fonts spacing radius shadows breakpoints)

/-- The shadcn/ui theme record generate_shadcn_theme builds. -/
structure ShadcnTheme where
  name : String
  type : String
  colors : List (String × String)
  borderRadius : String
  deriving DecidableEq

/-- Component-theme renderer (generate_shadcn_theme).  The three `next(...)`
searches become `find?`, the positional `colors[4]` becomes `get? 4`, each
shade subscript a `dlookup` bind in the source's read order, and the radius
uses `.get("DEFAULT", "0.5rem")`. -/
def generate_shadcn_theme (design_system : DesignSystem) : Option ShadcnTheme :=
  match design_system.colors.find? (fun c => c.name == "primary") with
  | none => none
  | some primary =>
  match design_system.colors.find? (fun c => c.name == "accent") with
  | none => none
  | some accent =>
  match design_system.colors.find? (fun c => c.name == "neutral") with
  | none => none
  | some neutral =>
  match dlookup neutral.variants "50" with
  | none => none
  | some n50 =>
  match dlookup neutral.variants "950" with
  | none => none
  | some n950 =>
  match dlookup primary.variants "500" with
  | none => none
  | some p500 =>
  match dlookup neutral.variants "100" with
  | none => none
  | some n100 =>
  match dlookup neutral.variants "900" with
  | none => none
  | some n900 =>
  match dlookup neutral.variants "500" with
  | none => none
  | some n500 =>
  match dlookup accent.variants "500" with
  | none => none
  | some a500 =>
  match design_system.colors.get? 4 with
  | none => none
  | some destructiveTok =>
  match dlookup destructiveTok.variants "500" with
  | none => none
  | some d500 =>
  match dlookup neutral.variants "200" with
  | none => none
  | some n200 =>
  some (ShadcnTheme.mk "default" "light"
    [("background", n50), ("foreground", n950), ("card", n50), ("cardForeground", n950),
     ("popover", n50), ("popoverForeground", n950), ("primary", p500),
     ("primaryForeground", n50), ("secondary", n100), ("secondaryForeground", n900),
     ("muted", n100), ("mutedForeground", n500), ("accent", a500),
     ("accentForeground", n50), ("destructive", d500), ("destructiveForeground", n50),
     ("border", n200), ("input", n200), ("ring", p500)]
    ((dlookup design_system.radius "DEFAULT").getD "0.5rem"))

/-- Option-valued map over a list, failing as soon as one element fails;
used to model reparsing a serialized JSON array element by element. -/
def optMapList {α β : Type} (f : α → Option β) : List α → Option (List β)
  | [] => some []
  | x :: xs => (f x).bind fun y => (optMapList f xs).map fun ys => y :: ys

/-- Serializes a string-to-string dict as a JSON object. -/
def strPairsToJson (l : List (String × String)) : Json :=
  Json.obj (l.map fun p => (p.1, Json.str p.2))

/-- asdict serialization of a ColorToken. -/
def colorTokenToJson (c : ColorToken) : Json :=
  Json.obj [("name", .str c.name), ("value", .str c.value), ("type", .str c.type),
            ("variants", strPairsToJson c.variants)]

/-- asdict serialization of a FontToken. -/
def fontTokenToJson (f : FontToken) : Json :=
  Json.obj [("name", .str f.name), ("family", .str f.family),
            ("weights", .arr (f.weights.map fun w => Json.num (PyNum.int (Int.ofNat w)))),
            ("sizes", Json.obj (f.sizes.map fun p => (p.1, Json.arr (p.2.map Json.str)))),
            ("line_heights", strPairsToJson f.line_heights)]

/-- The full-dump serialization `asdict(design_system)` written to
design-system.json; writing this tree as JSON text and loading it back
yields the same tree, so reparsing the dump is reparsing this value. -/
def asdictDesignSystem (ds : DesignSystem) : Json :=
  Json.obj [("colors", .arr (ds.colors.map colorTokenToJson)),
            ("fonts", .arr (ds.fonts.map fontTokenToJson)),
            ("spacing", Json.obj [("scale_factor", Json.num ds.spacing.scale_factor),
                                  ("values", strPairsToJson ds.spacing.values)]),
            ("radius", strPairsToJson ds.radius),
            ("shadows", strPairsToJson ds.shadows),
            ("breakpoints", strPairsToJson ds.breakpoints)]

/-- Object field access on a parsed JSON value. -/
def Json.getField : Json → String → Option Json
  | .obj fields, key => dlookup fields key
  | _, _ => none

/-- Reads a parsed JSON value as a string. -/
def Json.asStr : Json → Option String
  | .str s => some s
  | _ => none

/-- Reads a parsed JSON value as an array. -/
def Json.asArr : Json → Option (List Json)
  | .arr l => some l
  | _ => none

/-- Reads a parsed JSON object whose values are all strings back as a
string-to-string dict. -/
def Json.asStrPairs : Json → Option (List (String × String))
  | .obj fields => optMapList (fun p => (Json.asStr p.2).map fun s => (p.1, s)) fields
  | _ => none

/-- The mappings the round-trip property compares: color variants, spacing
values, radius, shadows and breakpoints, as recovered from a reparsed dump. -/
structure ReparsedSystem where
  colorVariants : List (List (String × String))
  spacingValues : List (String × String)
  radius : List (String × String)
  shadows : List (String × String)
  breakpoints : List (String × String)
  deriving DecidableEq

/-- Reconstructs the color-variant, spacing, radius, shadow and breakpoint
mappings from a reparsed design-system.json document. -/
def reparseDesignSystem (j : Json) : Option ReparsedSystem :=
  match (j.getField "colors").bind Json.asArr with
  | none => none
  | some colorArr =>
  match optMapList (fun c => (c.getField "variants").bind Json.asStrPairs) colorArr with
  | none => none
  | some colorVariants =>
  match ((j.getField "spacing").bind fun s => s.getField "values").bind Json.asStrPairs with
  | none => none
  | some spacingValues =>
  match (j.getField "radius").bind Json.asStrPairs with
  | none => none
  | some radius =>
  match (j.getField "shadows").bind Json.asStrPairs with
  | none => none
  | some shadows =>
  match (j.getField "breakpoints").bind Json.asStrPairs with
  | none => none
  | some breakpoints =>
  some (ReparsedSystem.mk colorVariants spacingValues radius shadows breakpoints)

/-- The DesignSystem the pipeline builds for the "finance" product type. -/
def finance_system : DesignSystem :=
  DesignSystem.mk
    [ColorToken.mk "primary" "#64748b" "primary" slate_palette,
     ColorToken.mk "accent" "#10b981" "accent" emerald_palette,
     ColorToken.mk "neutral" "#64748b" "neutral" slate_palette,
     ColorToken.mk "success" "#10b981" "semantic" emerald_palette,
     ColorToken.mk "warning" "#eab308" "semantic" yellow_palette,
     ColorToken.mk "error" "#ef4444" "semantic" red_palette]
    [FontToken.mk "sans" "Inter" [300, 400, 500, 600, 700] sans_sizes
      [("tight", "1.25"), ("normal", "1.5"), ("relaxed", "1.75")]]
    (SpacingToken.mk (PyNum.int 1)
      [("0", "0"), ("px", "1px"), ("0.5", "1rem"), ("1", "1rem"), ("2", "2rem"),
       ("3", "3rem"), ("4", "4rem"), ("5", "5rem"), ("6", "6rem"), ("8", "8rem"),
       ("10", "10rem"), ("12", "12rem"), ("16", "16rem"), ("20", "20rem"), ("24", "24rem")])
    [("sm", "0.125rem"), ("DEFAULT", "0.25rem"), ("md", "0.375rem"),
     ("lg", "0.5rem"), ("xl", "0.75rem")]
    [("xs", "0 1px 2px 0 rgb(0 0 0 / 0.05)"),
     ("sm", "0 1px 3px 0 rgb(0 0 0 / 0.1), 0 1px 2px -1px rgb(0 0 0 / 0.1)")]
    [("sm", "640px"), ("md", "768px"), ("lg", "1024px"), ("xl", "1280px"), ("2xl", "1536px")]


lemma dlookup_mem {α : Type} {l : List (String × α)} {k : String} {v : α}
    (h : dlookup l k = some v) : (k, v) ∈ l := by
  induction l with
  | nil => simp [dlookup] at h
  | cons p rest ih =>
      rw [dlookup] at h
      split at h
      · next heq =>
          cases h
          exact heq ▸ List.mem_cons_self p rest
      · exact List.mem_cons_of_mem p (ih h)

lemma dlookup_isSome_of_key_mem {α : Type} {l : List (String × α)} {k : String}
    (h : k ∈ l.map Prod.fst) : (dlookup l k).isSome = true := by
  induction l with
  | nil => simp at h
  | cons p rest ih =>
      rw [dlookup]
      split
      · rfl
      · next hne =>
          rw [List.map_cons, List.mem_cons] at h
          rcases h with h1 | h1
          · exact absurd h1.symm hne
          · exact ih h1

lemma exists_of_isSome {α : Type} {o : Option α} (h : o.isSome = true) : ∃ a, o = some a := by
  cases o with
  | none => simp [Option.isSome] at h
  | some a => exact ⟨a, rfl⟩

lemma palette_has_500 : ∀ x ∈ COLOR_PALETTES, (dlookup x.2 "500").isSome = true := by decide

lemma palette_keys : ∀ x ∈ COLOR_PALETTES, x.2.map Prod.fst = shade_keys := by decide

lemma typo_values : ∀ x ∈ TYPOGRAPHY, x.2 = sans_typography ∨ x.2 = friendly_typography := by
  decide

lemma style_values : ∀ x ∈ DESIGN_STYLES,
    x.2 = ecommerce_style ∨ x.2 = saas_style ∨ x.2 = social_style ∨
    x.2 = finance_style ∨ x.2 = healthcare_style ∨ x.2 = education_style := by decide

lemma generate_design_system_eq (s : StyleDict) (a : Assets)
    (pp : List (String × String)) (p5 : String) (ap : List (String × String)) (a5 : String)
    (tp : List (String × TypoVal)) (fam : List String) (f0 : String)
    (sizes : List (String × List String)) (sp : SpacingEntry)
    (rad sh : List (String × String))
    (hp : dlookup COLOR_PALETTES (s.primary_color.getD "indigo") = some pp)
    (hp5 : dlookup pp "500" = some p5)
    (ha : dlookup COLOR_PALETTES (s.accent_color.getD "purple") = some ap)
    (ha5 : dlookup ap "500" = some a5)
    (ht : dlookup TYPOGRAPHY (s.typography.getD "sans") = some tp)
    (hfam : dlookup tp "family" = some (TypoVal.strs fam))
    (hf0 : fam.head? = some f0)
    (hsz : dlookup tp "sizes" = some (TypoVal.table sizes))
    (hsp : dlookup SPACING (s.spacing.getD "comfortable") = some sp)
    (hr : dlookup BORDER_RADIUS (s.border_radius.getD "medium") = some rad)
    (hsh : dlookup SHADOWS (s.shadows.getD "soft") = some sh) :
    generate_design_system s a = some (DesignSystem.mk
      [ColorToken.mk "primary" p5 "primary" pp,
       ColorToken.mk "accent" a5 "accent" ap,
       ColorToken.mk "neutral" "#64748b" "neutral" slate_palette,
       ColorToken.mk "success" "#10b981" "semantic" emerald_palette,
       ColorToken.mk "warning" "#eab308" "semantic" yellow_palette,
       ColorToken.mk "error" "#ef4444" "semantic" red_palette]
      [FontToken.mk "sans" f0 [300, 400, 500, 600, 700] sizes
        [("tight", "1.25"), ("normal", "1.5"), ("relaxed", "1.75")]]
      (SpacingToken.mk sp.scale
        [("0", "0"), ("px", "1px"), ("0.5", sp.base),
         ("1", sp.scale.toStr ++ "rem"), ("2", (sp.scale.mulNat 2).toStr ++ "rem"),
         ("3", (sp.scale.mulNat 3).toStr ++ "rem"), ("4", (sp.scale.mulNat 4).toStr ++ "rem"),
         ("5", (sp.scale.mulNat 5).toStr ++ "rem"), ("6", (sp.scale.mulNat 6).toStr ++ "rem"),
         ("8", (sp.scale.mulNat 8).toStr ++ "rem"), ("10", (sp.scale.mulNat 10).toStr ++ "rem"),
         ("12", (sp.scale.mulNat 12).toStr ++ "rem"), ("16", (sp.scale.mulNat 16).toStr ++ "rem"),
         ("20", (sp.scale.mulNat 20).toStr ++ "rem"), ("24", (sp.scale.mulNat 24).toStr ++ "rem")])
      rad sh
      [("sm", "640px"), ("md", "768px"), ("lg", "1024px"), ("xl", "1280px"), ("2xl", "1536px")]) := by
  unfold generate_design_system
  simp only [hp, hp5, ha, ha5, ht, hfam, hf0, hsz, hsp, hr, hsh,
    TypoVal.asStrs, TypoVal.asTable]
  rfl

lemma generate_shadcn_theme_eq (pp : List (String × String)) (pv p5 : String)
    (ap : List (String × String)) (av a5 : String)
    (nv sv wv ev : String)
    (fonts : List FontToken) (spt : SpacingToken) (rad sh bp : List (String × String))
    (hp5 : dlookup pp "500" = some p5) (ha5 : dlookup ap "500" = some a5) :
    generate_shadcn_theme (DesignSystem.mk
      [ColorToken.mk "primary" pv "primary" pp,
       ColorToken.mk "accent" av "accent" ap,
       ColorToken.mk "neutral" nv "neutral" slate_palette,
       ColorToken.mk "success" sv "semantic" emerald_palette,
       ColorToken.mk "warning" wv "semantic" yellow_palette,
       ColorToken.mk "error" ev "semantic" red_palette]
      fonts spt rad sh bp) = some (ShadcnTheme.mk "default" "light"
      [("background", "#f8fafc"), ("foreground", "#020617"), ("card", "#f8fafc"),
       ("cardForeground", "#020617"), ("popover", "#f8fafc"), ("popoverForeground", "#020617"),
       ("primary", p5), ("primaryForeground", "#f8fafc"), ("secondary", "#f1f5f9"),
       ("secondaryForeground", "#0f172a"), ("muted", "#f1f5f9"), ("mutedForeground", "#64748b"),
       ("accent", a5), ("accentForeground", "#f8fafc"), ("destructive", "#eab308"),
       ("destructiveForeground", "#f8fafc"), ("border", "#e2e8f0"), ("input", "#e2e8f0"),
       ("ring", p5)]
      ((dlookup rad "DEFAULT").getD "0.5rem")) := by
  have e1 : (("primary" : String) == "primary") = true := rfl
  have e2 : (("primary" : String) == "accent") = false := rfl
  have e3 : (("accent" : String) == "accent") = true := rfl
  have e4 : (("primary" : String) == "neutral") = false := rfl
  have e5 : (("accent" : String) == "neutral") = false := rfl
  have e6 : (("neutral" : String) == "neutral") = true := rfl
  unfold generate_shadcn_theme
  simp only [List.find?, e1, e2, e3, e4, e5, e6, hp5, ha5]
  rfl

lemma recommend_cases (pt : Option String) (a : Assets) :
    recommend_design_style pt a = ecommerce_style ∨
    recommend_design_style pt a = saas_style ∨
    recommend_design_style pt a = social_style ∨
    recommend_design_style pt a = finance_style ∨
    recommend_design_style pt a = healthcare_style ∨
    recommend_design_style pt a = education_style := by
  cases pt with
  | none => right; left; rfl
  | some s =>
      have hred : recommend_design_style (some s) a =
          (if s = "" then saas_style
           else
             match dlookup DESIGN_STYLES (str_lower s) with
             | some style => style
             | none => saas_style) := rfl
      rw [hred]
      by_cases hs : s = ""
      · rw [if_pos hs]; right; left; rfl
      · rw [if_neg hs]
        cases hl : dlookup DESIGN_STYLES (str_lower s) with
        | none => right; left; rfl
        | some st =>
            rcases style_values _ (dlookup_mem hl) with h1 | h1 | h1 | h1 | h1 | h1 <;>
              rw [show st = _ from h1]
            · exact Or.inl rfl
            · exact Or.inr (Or.inl rfl)
            · exact Or.inr (Or.inr (Or.inl rfl))
            · exact Or.inr (Or.inr (Or.inr (Or.inl rfl)))
            · exact Or.inr (Or.inr (Or.inr (Or.inr (Or.inl rfl))))
            · exact Or.inr (Or.inr (Or.inr (Or.inr (Or.inr rfl))))

lemma optMapList_strPairs (l : List (String × String)) :
    optMapList (fun p => (Json.asStr p.2).map fun s => (p.1, s))
      (l.map fun p => (p.1, Json.str p.2)) = some l := by
  induction l with
  | nil => rfl
  | cons p rest ih =>
      have step : optMapList (fun q => (Json.asStr q.2).map fun s => (q.1, s))
          (List.map (fun q => (q.1, Json.str q.2)) (p :: rest))
          = (optMapList (fun q => (Json.asStr q.2).map fun s => (q.1, s))
              (List.map (fun q => (q.1, Json.str q.2)) rest)).map fun ys => p :: ys := rfl
      rw [step, ih]
      rfl

lemma asStrPairs_round (l : List (String × String)) :
    Json.asStrPairs (strPairsToJson l) = some l := by
  simp only [strPairsToJson, Json.asStrPairs]
  exact optMapList_strPairs l

lemma optMapList_variants (cs : List ColorToken) :
    optMapList (fun c => (c.getField "variants").bind Json.asStrPairs) (cs.map colorTokenToJson)
      = some (cs.map ColorToken.variants) := by
  induction cs with
  | nil => rfl
  | cons c rest ih =>
      have h1 : (Json.getField (colorTokenToJson c) "variants").bind Json.asStrPairs
          = some c.variants := by
        have h2 : Json.getField (colorTokenToJson c) "variants"
            = some (strPairsToJson c.variants) := rfl
        rw [h2]
        exact asStrPairs_round c.variants
      simp only [List.map_cons, optMapList, h1, ih]
      rfl

lemma reparse_asdict (ds : DesignSystem) :
    reparseDesignSystem (asdictDesignSystem ds) = some (ReparsedSystem.mk
      (ds.colors.map ColorToken.variants) ds.spacing.values ds.radius ds.shadows
      ds.breakpoints) := by
  have h1 : (Json.getField (asdictDesignSystem ds) "colors").bind Json.asArr
      = some (ds.colors.map colorTokenToJson) := rfl
  have h2 : optMapList (fun c => (Json.getField c "variants").bind Json.asStrPairs)
      (ds.colors.map colorTokenToJson) = some (ds.colors.map ColorToken.variants) :=
    optMapList_variants ds.colors
  have h3 : ((Json.getField (asdictDesignSystem ds) "spacing").bind
      fun s => Json.getField s "values").bind Json.asStrPairs = some ds.spacing.values := by
    have e : ((Json.getField (asdictDesignSystem ds) "spacing").bind
        fun s => Json.getField s "values") = some (strPairsToJson ds.spacing.values) := rfl
    rw [e]
    exact asStrPairs_round ds.spacing.values
  have h4 : (Json.getField (asdictDesignSystem ds) "radius").bind Json.asStrPairs
      = some ds.radius := by
    have e : Json.getField (asdictDesignSystem ds) "radius"
        = some (strPairsToJson ds.radius) := rfl
    rw [e]
    exact asStrPairs_round ds.radius
  have h5 : (Json.getField (asdictDesignSystem ds) "shadows").bind Json.asStrPairs
      = some ds.shadows := by
    have e : Json.getField (asdictDesignSystem ds) "shadows"
        = some (strPairsToJson ds.shadows) := rfl
    rw [e]
    exact asStrPairs_round ds.shadows
  have h6 : (Json.getField (asdictDesignSystem ds) "breakpoints").bind Json.asStrPairs
      = some ds.breakpoints := by
    have e : Json.getField (asdictDesignSystem ds) "breakpoints"
        = some (strPairsToJson ds.breakpoints) := rfl
    rw [e]
    exact asStrPairs_round ds.breakpoints
  unfold reparseDesignSystem
  simp only [h1, h2, h3, h4, h5, h6]

/-- C1: for every style preset whose primary and accent color families are
keys of COLOR_PALETTES (and whose remaining style keys also resolve, so the
builder returns a system), the DesignSystem built by generate_design_system
has exactly 6 color tokens named primary, accent, neutral, success, warning,
error in that order, each token's variants mapping is taken verbatim from the
chosen static palette, and every variants mapping carries exactly the 11
shade keys 50..950 — no token is partially populated. -/
theorem color_tokens_complete (s : StyleDict) (a : Assets)
    (pp ap : List (String × String)) (tp : List (String × TypoVal)) (sp : SpacingEntry)
    (rad sh : List (String × String))
    (hp : dlookup COLOR_PALETTES (s.primary_color.getD "indigo") = some pp)
    (ha : dlookup COLOR_PALETTES (s.accent_color.getD "purple") = some ap)
    (ht : dlookup TYPOGRAPHY (s.typography.getD "sans") = some tp)
    (hsp : dlookup SPACING (s.spacing.getD "comfortable") = some sp)
    (hr : dlookup BORDER_RADIUS (s.border_radius.getD "medium") = some rad)
    (hsh : dlookup SHADOWS (s.shadows.getD "soft") = some sh) :
    ∃ ds : DesignSystem, generate_design_system s a = some ds ∧
      ds.colors.length = 6 ∧
      ds.colors.map ColorToken.name
        = ["primary", "accent", "neutral", "success", "warning", "error"] ∧
      ds.colors.map ColorToken.variants
        = [pp, ap, slate_palette, emerald_palette, yellow_palette, red_palette] ∧
      ∀ t ∈ ds.colors, t.variants.map Prod.fst = shade_keys := by
  obtain ⟨p5, hp5⟩ := exists_of_isSome (palette_has_500 _ (dlookup_mem hp))
  obtain ⟨a5, ha5⟩ := exists_of_isSome (palette_has_500 _ (dlookup_mem ha))
  have hkp := palette_keys _ (dlookup_mem hp)
  have hka := palette_keys _ (dlookup_mem ha)
  have hvar : ∀ t ∈ [ColorToken.mk "primary" p5 "primary" pp,
      ColorToken.mk "accent" a5 "accent" ap,
      ColorToken.mk "neutral" "#64748b" "neutral" slate_palette,
      ColorToken.mk "success" "#10b981" "semantic" emerald_palette,
      ColorToken.mk "warning" "#eab308" "semantic" yellow_palette,
      ColorToken.mk "error" "#ef4444" "semantic" red_palette],
      t.variants.map Prod.fst = shade_keys := by
    intro t htm
    simp only [List.mem_cons, List.not_mem_nil, or_false] at htm
    rcases htm with rfl | rfl | rfl | rfl | rfl | rfl
    · exact hkp
    · exact hka
    · rfl
    · rfl
    · rfl
    · rfl
  rcases typo_values _ (dlookup_mem ht) with htp | htp
  · subst htp
    exact ⟨_, generate_design_system_eq s a pp p5 ap a5 sans_typography
        ["Inter", "system-ui", "sans-serif"] "Inter" sans_sizes sp rad sh
        hp hp5 ha ha5 ht rfl rfl rfl hsp hr hsh, rfl, rfl, rfl, hvar⟩
  · subst htp
    exact ⟨_, generate_design_system_eq s a pp p5 ap a5 friendly_typography
        ["Nunito", "system-ui", "sans-serif"] "Nunito" friendly_sizes sp rad sh
        hp hp5 ha ha5 ht rfl rfl rfl hsp hr hsh, rfl, rfl, rfl, hvar⟩

theorem color_tokens_complete_witness :
    dlookup COLOR_PALETTES (finance_style.primary_color.getD "indigo") = some slate_palette ∧
    dlookup COLOR_PALETTES (finance_style.accent_color.getD "purple") = some emerald_palette ∧
    (∃ ds : DesignSystem, generate_design_system finance_style emptyAssets = some ds ∧
      ds.colors.length = 6 ∧
      ds.colors.map ColorToken.name
        = ["primary", "accent", "neutral", "success", "warning", "error"] ∧
      ds.colors.map ColorToken.variants
        = [slate_palette, emerald_palette, slate_palette, emerald_palette,
           yellow_palette, red_palette] ∧
      ∀ t ∈ ds.colors, t.variants.map Prod.fst = shade_keys) :=
  ⟨rfl, rfl, color_tokens_complete finance_style emptyAssets slate_palette emerald_palette
    sans_typography ⟨PyNum.int 1, "1rem"⟩
    [("sm", "0.125rem"), ("DEFAULT", "0.25rem"), ("md", "0.375rem"),
     ("lg", "0.5rem"), ("xl", "0.75rem")]
    [("xs", "0 1px 2px 0 rgb(0 0 0 / 0.05)"),
     ("sm", "0 1px 3px 0 rgb(0 0 0 / 0.1), 0 1px 2px -1px rgb(0 0 0 / 0.1)")]
    rfl rfl rfl rfl rfl rfl⟩

/-- C2: for every preset (whose style keys resolve so the builder returns a
system), the neutral, success, warning and error tokens are assigned fixed
palette families independent of the preset — slate, emerald, yellow and red,
looked up in COLOR_PALETTES — with category tags neutral/semantic, while only
the primary and accent tokens take their palette family from the preset's
primary_color and accent_color fields. -/
theorem fixed_semantic_families (s : StyleDict) (a : Assets)
    (pp : List (String × String)) (p5 : String) (ap : List (String × String)) (a5 : String)
    (tp : List (String × TypoVal)) (sp : SpacingEntry) (rad sh : List (String × String))
    (hp : dlookup COLOR_PALETTES (s.primary_color.getD "indigo") = some pp)
    (hp5 : dlookup pp "500" = some p5)
    (ha : dlookup COLOR_PALETTES (s.accent_color.getD "purple") = some ap)
    (ha5 : dlookup ap "500" = some a5)
    (ht : dlookup TYPOGRAPHY (s.typography.getD "sans") = some tp)
    (hsp : dlookup SPACING (s.spacing.getD "comfortable") = some sp)
    (hr : dlookup BORDER_RADIUS (s.border_radius.getD "medium") = some rad)
    (hsh : dlookup SHADOWS (s.shadows.getD "soft") = some sh) :
    ∃ ds : DesignSystem, generate_design_system s a = some ds ∧
      ds.colors.get? 0 = some (ColorToken.mk "primary" p5 "primary" pp) ∧
      ds.colors.get? 1 = some (ColorToken.mk "accent" a5 "accent" ap) ∧
      ds.colors.get? 2 = some (ColorToken.mk "neutral" "#64748b" "neutral" slate_palette) ∧
      ds.colors.get? 3 = some (ColorToken.mk "success" "#10b981" "semantic" emerald_palette) ∧
      ds.colors.get? 4 = some (ColorToken.mk "warning" "#eab308" "semantic" yellow_palette) ∧
      ds.colors.get? 5 = some (ColorToken.mk "error" "#ef4444" "semantic" red_palette) ∧
      dlookup COLOR_PALETTES "slate" = some slate_palette ∧
      dlookup COLOR_PALETTES "emerald" = some emerald_palette ∧
      dlookup COLOR_PALETTES "yellow" = some yellow_palette ∧
      dlookup COLOR_PALETTES "red" = some red_palette := by
  rcases typo_values _ (dlookup_mem ht) with htp | htp
  · subst htp
    exact ⟨_, generate_design_system_eq s a pp p5 ap a5 sans_typography
        ["Inter", "system-ui", "sans-serif"] "Inter" sans_sizes sp rad sh
        hp hp5 ha ha5 ht rfl rfl rfl hsp hr hsh,
      rfl, rfl, rfl, rfl, rfl, rfl, rfl, rfl, rfl, rfl⟩
  · subst htp
    exact ⟨_, generate_design_system_eq s a pp p5 ap a5 friendly_typography
        ["Nunito", "system-ui", "sans-serif"] "Nunito" friendly_sizes sp rad sh
        hp hp5 ha ha5 ht rfl rfl rfl hsp hr hsh,
      rfl, rfl, rfl, rfl, rfl, rfl, rfl, rfl, rfl, rfl⟩

theorem fixed_semantic_families_witness :
    dlookup COLOR_PALETTES (saas_style.primary_color.getD "indigo") = some indigo_palette ∧
    dlookup indigo_palette "500" = some "#6366f1" ∧
    dlookup COLOR_PALETTES (saas_style.accent_color.getD "purple") = some purple_palette ∧
    dlookup purple_palette "500" = some "#a855f7" ∧
    (∃ ds : DesignSystem, generate_design_system saas_style emptyAssets = some ds ∧
      ds.colors.get? 0 = some (ColorToken.mk "primary" "#6366f1" "primary" indigo_palette) ∧
      ds.colors.get? 1 = some (ColorToken.mk "accent" "#a855f7" "accent" purple_palette) ∧
      ds.colors.get? 2 = some (ColorToken.mk "neutral" "#64748b" "neutral" slate_palette) ∧
      ds.colors.get? 3 = some (ColorToken.mk "success" "#10b981" "semantic" emerald_palette) ∧
      ds.colors.get? 4 = some (ColorToken.mk "warning" "#eab308" "semantic" yellow_palette) ∧
      ds.colors.get? 5 = some (ColorToken.mk "error" "#ef4444" "semantic" red_palette) ∧
      dlookup COLOR_PALETTES "slate" = some slate_palette ∧
      dlookup COLOR_PALETTES "emerald" = some emerald_palette ∧
      dlookup COLOR_PALETTES "yellow" = some yellow_palette ∧
      dlookup COLOR_PALETTES "red" = some red_palette) :=
  ⟨rfl, rfl, rfl, rfl, fixed_semantic_families saas_style emptyAssets indigo_palette "#6366f1"
    purple_palette "#a855f7" sans_typography ⟨PyNum.float 2, "0.5rem"⟩
    [("sm", "0.25rem"), ("DEFAULT", "0.5rem"), ("md", "0.75rem"),
     ("lg", "1rem"), ("xl", "1.5rem"), ("2xl", "2rem")]
    [("DEFAULT", "0 4px 6px -1px rgb(0 0 0 / 0.1), 0 2px 4px -2px rgb(0 0 0 / 0.1)"),
     ("md", "0 10px 15px -3px rgb(0 0 0 / 0.1), 0 4px 6px -4px rgb(0 0 0 / 0.1)"),
     ("lg", "0 20px 25px -5px rgb(0 0 0 / 0.1), 0 8px 10px -6px rgb(0 0 0 / 0.1)")]
    rfl rfl rfl rfl rfl rfl rfl rfl⟩

/-- C3: resolving product type "finance" yields the slate/emerald preset with
subtle radius, minimal shadows and spacious spacing, and the system built
from it maps spacing key "4" to "4rem" (the int scale 1 times 4) and key
"0.5" to "1rem" (the spacing style's base unit, not scale times 0.5). -/
theorem finance_scenario (a : Assets) :
    recommend_design_style (some "finance") a = finance_style ∧
    finance_style.primary_color = some "slate" ∧
    finance_style.accent_color = some "emerald" ∧
    finance_style.border_radius = some "subtle" ∧
    finance_style.shadows = some "minimal" ∧
    finance_style.spacing = some "spacious" ∧
    generate_design_system finance_style a = some finance_system ∧
    finance_system.spacing.scale_factor = PyNum.int 1 ∧
    dlookup finance_system.spacing.values "4" = some "4rem" ∧
    dlookup finance_system.spacing.values "0.5" = some "1rem" :=
  ⟨rfl, rfl, rfl, rfl, rfl, rfl, rfl, rfl, rfl, rfl⟩

/-- C4: the style resolver is total and matches its contract: its result is
always the lowercased lookup in DESIGN_STYLES when the product type is
present and found, and otherwise (absent input, empty string, or unknown
key) the preset registered under the hardcoded default key "saas", whose
primary family is indigo and accent family purple. -/
theorem recommend_contract (pt : Option String) (a : Assets) :
    recommend_design_style pt a
      = ((pt.bind fun s => dlookup DESIGN_STYLES (str_lower s)).getD saas_style) ∧
    dlookup DESIGN_STYLES "saas" = some saas_style ∧
    saas_style.primary_color = some "indigo" ∧
    saas_style.accent_color = some "purple" := by
  refine ⟨?_, rfl, rfl, rfl⟩
  cases pt with
  | none => rfl
  | some s =>
      have hred : recommend_design_style (some s) a =
          (if s = "" then saas_style
           else
             match dlookup DESIGN_STYLES (str_lower s) with
             | some style => style
             | none => saas_style) := rfl
      have hrhs : ((Option.some s).bind fun t => dlookup DESIGN_STYLES (str_lower t)).getD
          saas_style = (dlookup DESIGN_STYLES (str_lower s)).getD saas_style := rfl
      rw [hred, hrhs]
      by_cases hs : s = ""
      · subst hs; rfl
      · rw [if_neg hs]
        cases hl : dlookup DESIGN_STYLES (str_lower s) with
        | none => rfl
        | some st => rfl

/-- C5: every entry of the fixed preset table DESIGN_STYLES resolves to its
own preset, and all its style fields are present and are valid keys of their
respective static tables: the color families in COLOR_PALETTES, the radius
style in BORDER_RADIUS, the shadow style in SHADOWS, the typography style in
TYPOGRAPHY and the spacing style in SPACING. -/
theorem preset_closure : ∀ x ∈ DESIGN_STYLES,
    dlookup DESIGN_STYLES x.1 = some x.2 ∧
    (x.2.primary_color.bind fun c => dlookup COLOR_PALETTES c).isSome = true ∧
    (x.2.accent_color.bind fun c => dlookup COLOR_PALETTES c).isSome = true ∧
    (x.2.border_radius.bind fun c => dlookup BORDER_RADIUS c).isSome = true ∧
    (x.2.shadows.bind fun c => dlookup SHADOWS c).isSome = true ∧
    (x.2.typography.bind fun c => dlookup TYPOGRAPHY c).isSome = true ∧
    (x.2.spacing.bind fun c => dlookup SPACING c).isSome = true := by decide

theorem preset_closure_witness :
    ("finance", finance_style) ∈ DESIGN_STYLES ∧
    (dlookup DESIGN_STYLES "finance" = some finance_style ∧
     (finance_style.primary_color.bind fun c => dlookup COLOR_PALETTES c).isSome = true ∧
     (finance_style.accent_color.bind fun c => dlookup COLOR_PALETTES c).isSome = true ∧
     (finance_style.border_radius.bind fun c => dlookup BORDER_RADIUS c).isSome = true ∧
     (finance_style.shadows.bind fun c => dlookup SHADOWS c).isSome = true ∧
     (finance_style.typography.bind fun c => dlookup TYPOGRAPHY c).isSome = true ∧
     (finance_style.spacing.bind fun c => dlookup SPACING c).isSome = true) :=
  ⟨by decide, preset_closure ("finance", finance_style) (by decide)⟩

/-- C6: for every DesignSystem the pipeline builds (any product type through
the resolver and builder), the component theme's "destructive" color is the
"500" shade of the color token at positional index 4 — the warning token
backed by the yellow palette, not the error token — and the theme's single
borderRadius value is the radius mapping's "DEFAULT" entry. -/
theorem destructive_positional (pt : Option String) (a : Assets) (ds : DesignSystem)
    (h : generate_design_system (recommend_design_style pt a) a = some ds) :
    ((generate_shadcn_theme ds).bind fun th => dlookup th.colors "destructive")
        = dlookup yellow_palette "500" ∧
    ds.colors.get? 4 = some (ColorToken.mk "warning" "#eab308" "semantic" yellow_palette) ∧
    (ds.colors.get? 5).map ColorToken.name = some "error" ∧
    ((generate_shadcn_theme ds).bind fun th => dlookup th.colors "destructive")
        ≠ dlookup red_palette "500" ∧
    (generate_shadcn_theme ds).map ShadcnTheme.borderRadius = dlookup ds.radius "DEFAULT" := by
  rcases recommend_cases pt a with hr | hr | hr | hr | hr | hr <;> rw [hr] at h <;>
    obtain rfl := Option.some.inj h <;>
    exact ⟨rfl, rfl, rfl, by decide, rfl⟩

theorem destructive_positional_witness :
    generate_design_system (recommend_design_style (some "finance") emptyAssets) emptyAssets
      = some finance_system ∧
    (((generate_shadcn_theme finance_system).bind fun th => dlookup th.colors "destructive")
        = dlookup yellow_palette "500" ∧
     finance_system.colors.get? 4
        = some (ColorToken.mk "warning" "#eab308" "semantic" yellow_palette) ∧
     (finance_system.colors.get? 5).map ColorToken.name = some "error" ∧
     ((generate_shadcn_theme finance_system).bind fun th => dlookup th.colors "destructive")
        ≠ dlookup red_palette "500" ∧
     (generate_shadcn_theme finance_system).map ShadcnTheme.borderRadius
        = dlookup finance_system.radius "DEFAULT") :=
  ⟨rfl, destructive_positional (some "finance") emptyAssets finance_system rfl⟩

/-- C7 counterexample: the claim that the font token's line-height table is
taken verbatim from the selected typography table entry fails concretely:
for the saas preset the selected entry is the "sans" typography dict, whose
keys are exactly "family" and "sizes" — it has no "line_heights" entry at
all — while the built font token carries the fixed line-height mapping
tight 1.25 / normal 1.5 / relaxed 1.75 hardcoded in the token builder. -/
theorem font_line_heights_not_from_table :
    dlookup TYPOGRAPHY "sans" = some sans_typography ∧
    sans_typography.map Prod.fst = ["family", "sizes"] ∧
    dlookup sans_typography "line_heights" = none ∧
    (generate_design_system saas_style emptyAssets).map
        (fun ds => ds.fonts.map FontToken.line_heights)
      = some [[("tight", "1.25"), ("normal", "1.5"), ("relaxed", "1.75")]] :=
  ⟨rfl, rfl, rfl, rfl⟩

/-- C7 (amended): for every preset whose style keys resolve, the single font
token takes its family from the first family name of the selected typography
entry, has the fixed weight list [300, 400, 500, 600, 700], takes its size
table verbatim from the selected typography entry, and carries the fixed
line-height mapping tight 1.25 / normal 1.5 / relaxed 1.75 hardcoded in the
token builder — the typography entry itself has no line-height table. -/
theorem font_token_amended (s : StyleDict) (a : Assets)
    (pp ap : List (String × String)) (tp : List (String × TypoVal)) (sp : SpacingEntry)
    (rad sh : List (String × String))
    (hp : dlookup COLOR_PALETTES (s.primary_color.getD "indigo") = some pp)
    (ha : dlookup COLOR_PALETTES (s.accent_color.getD "purple") = some ap)
    (ht : dlookup TYPOGRAPHY (s.typography.getD "sans") = some tp)
    (hsp : dlookup SPACING (s.spacing.getD "comfortable") = some sp)
    (hr : dlookup BORDER_RADIUS (s.border_radius.getD "medium") = some rad)
    (hsh : dlookup SHADOWS (s.shadows.getD "soft") = some sh) :
    ∃ (ds : DesignSystem) (fam : List String) (f0 : String)
      (sizes : List (String × List String)),
      generate_design_system s a = some ds ∧
      dlookup tp "family" = some (TypoVal.strs fam) ∧
      fam.head? = some f0 ∧
      dlookup tp "sizes" = some (TypoVal.table sizes) ∧
      dlookup tp "line_heights" = none ∧
      ds.fonts = [FontToken.mk "sans" f0 [300, 400, 500, 600, 700] sizes
        [("tight", "1.25"), ("normal", "1.5"), ("relaxed", "1.75")]] := by
  obtain ⟨p5, hp5⟩ := exists_of_isSome (palette_has_500 _ (dlookup_mem hp))
  obtain ⟨a5, ha5⟩ := exists_of_isSome (palette_has_500 _ (dlookup_mem ha))
  rcases typo_values _ (dlookup_mem ht) with htp | htp
  · subst htp
    exact ⟨_, _, _, _, generate_design_system_eq s a pp p5 ap a5 sans_typography
        ["Inter", "system-ui", "sans-serif"] "Inter" sans_sizes sp rad sh
        hp hp5 ha ha5 ht rfl rfl rfl hsp hr hsh, rfl, rfl, rfl, rfl, rfl⟩
  · subst htp
    exact ⟨_, _, _, _, generate_design_system_eq s a pp p5 ap a5 friendly_typography
        ["Nunito", "system-ui", "sans-serif"] "Nunito" friendly_sizes sp rad sh
        hp hp5 ha ha5 ht rfl rfl rfl hsp hr hsh, rfl, rfl, rfl, rfl, rfl⟩

theorem font_token_amended_witness :
    dlookup COLOR_PALETTES (finance_style.primary_color.getD "indigo") = some slate_palette ∧
    dlookup COLOR_PALETTES (finance_style.accent_color.getD "purple") = some emerald_palette ∧
    dlookup TYPOGRAPHY (finance_style.typography.getD "sans") = some sans_typography ∧
    (∃ (ds : DesignSystem) (fam : List String) (f0 : String)
      (sizes : List (String × List String)),
      generate_design_system finance_style emptyAssets = some ds ∧
      dlookup sans_typography "family" = some (TypoVal.strs fam) ∧
      fam.head? = some f0 ∧
      dlookup sans_typography "sizes" = some (TypoVal.table sizes) ∧
      dlookup sans_typography "line_heights" = none ∧
      ds.fonts = [FontToken.mk "sans" f0 [300, 400, 500, 600, 700] sizes
        [("tight", "1.25"), ("normal", "1.5"), ("relaxed", "1.75")]]) :=
  ⟨rfl, rfl, rfl, font_token_amended finance_style emptyAssets slate_palette emerald_palette
    sans_typography ⟨PyNum.int 1, "1rem"⟩
    [("sm", "0.125rem"), ("DEFAULT", "0.25rem"), ("md", "0.375rem"),
     ("lg", "0.5rem"), ("xl", "0.75rem")]
    [("xs", "0 1px 2px 0 rgb(0 0 0 / 0.05)"),
     ("sm", "0 1px 3px 0 rgb(0 0 0 / 0.1), 0 1px 2px -1px rgb(0 0 0 / 0.1)")]
    rfl rfl rfl rfl rfl rfl⟩

/-- C8: the loaded-assets mapping does not influence token generation — for
every preset and any two assets mappings, generate_design_system returns the
same result, so the generated DesignSystem depends only on the resolved
preset and the static tables. -/
theorem assets_not_influencing (s : StyleDict) (A B : Assets) :
    generate_design_system s A = generate_design_system s B := rfl

/-- C9: round-trip — for every DesignSystem built by generate_design_system,
reparsing the asdict full dump reconstructs color variants, spacing values,
radius, shadow and breakpoint mappings equal to those of the in-memory
system. -/
theorem design_system_roundtrip (s : StyleDict) (a : Assets) (ds : DesignSystem)
    (h : generate_design_system s a = some ds) :
    reparseDesignSystem (asdictDesignSystem ds)
      = some (ReparsedSystem.mk (ds.colors.map ColorToken.variants) ds.spacing.values
          ds.radius ds.shadows ds.breakpoints) :=
  reparse_asdict ds

theorem design_system_roundtrip_witness :
    generate_design_system finance_style emptyAssets = some finance_system ∧
    reparseDesignSystem (asdictDesignSystem finance_system)
      = some (ReparsedSystem.mk (finance_system.colors.map ColorToken.variants)
          finance_system.spacing.values finance_system.radius finance_system.shadows
          finance_system.breakpoints) :=
  ⟨rfl, design_system_roundtrip finance_style emptyAssets finance_system rfl⟩

/-- C10: for every preset whose color families are valid palette keys (and
whose remaining style keys resolve so a system is built), the component-theme
renderer is total on the built system: the searches for tokens named
primary, accent and neutral all succeed, the positional index 4 is in
bounds, every shade key the renderer reads (50, 100, 200, 500, 900, 950) is
present in every token's variants mapping, and generate_shadcn_theme
returns a theme. -/
theorem shadcn_total (s : StyleDict) (a : Assets)
    (pp ap : List (String × String)) (tp : List (String × TypoVal)) (sp : SpacingEntry)
    (rad sh : List (String × String))
    (hp : dlookup COLOR_PALETTES (s.primary_color.getD "indigo") = some pp)
    (ha : dlookup COLOR_PALETTES (s.accent_color.getD "purple") = some ap)
    (ht : dlookup TYPOGRAPHY (s.typography.getD "sans") = some tp)
    (hsp : dlookup SPACING (s.spacing.getD "comfortable") = some sp)
    (hr : dlookup BORDER_RADIUS (s.border_radius.getD "medium") = some rad)
    (hsh : dlookup SHADOWS (s.shadows.getD "soft") = some sh) :
    ∃ (ds : DesignSystem) (th : ShadcnTheme),
      generate_design_system s a = some ds ∧
      generate_shadcn_theme ds = some th ∧
      (ds.colors.find? fun c => c.name == "primary").isSome = true ∧
      (ds.colors.find? fun c => c.name == "accent").isSome = true ∧
      (ds.colors.find? fun c => c.name == "neutral").isSome = true ∧
      (ds.colors.get? 4).isSome = true ∧
      ∀ t ∈ ds.colors, ∀ k ∈ ["50", "100", "200", "500", "900", "950"],
        (dlookup t.variants k).isSome = true := by
  obtain ⟨p5, hp5⟩ := exists_of_isSome (palette_has_500 _ (dlookup_mem hp))
  obtain ⟨a5, ha5⟩ := exists_of_isSome (palette_has_500 _ (dlookup_mem ha))
  have hkp := palette_keys _ (dlookup_mem hp)
  have hka := palette_keys _ (dlookup_mem ha)
  have hsub : ∀ k ∈ ["50", "100", "200", "500", "900", "950"], k ∈ shade_keys := by decide
  have hvar : ∀ t ∈ [ColorToken.mk "primary" p5 "primary" pp,
      ColorToken.mk "accent" a5 "accent" ap,
      ColorToken.mk "neutral" "#64748b" "neutral" slate_palette,
      ColorToken.mk "success" "#10b981" "semantic" emerald_palette,
      ColorToken.mk "warning" "#eab308" "semantic" yellow_palette,
      ColorToken.mk "error" "#ef4444" "semantic" red_palette],
      ∀ k ∈ ["50", "100", "200", "500", "900", "950"],
        (dlookup t.variants k).isSome = true := by
    intro t htm
    simp only [List.mem_cons, List.not_mem_nil, or_false] at htm
    rcases htm with rfl | rfl | rfl | rfl | rfl | rfl <;> intro k hk <;>
      apply dlookup_isSome_of_key_mem
    · rw [hkp]; exact hsub k hk
    · rw [hka]; exact hsub k hk
    · exact hsub k hk
    · exact hsub k hk
    · exact hsub k hk
    · exact hsub k hk
  rcases typo_values _ (dlookup_mem ht) with htp | htp
  · subst htp
    exact ⟨_, _, generate_design_system_eq s a pp p5 ap a5 sans_typography
        ["Inter", "system-ui", "sans-serif"] "Inter" sans_sizes sp rad sh
        hp hp5 ha ha5 ht rfl rfl rfl hsp hr hsh,
      generate_shadcn_theme_eq pp p5 p5 ap a5 a5 "#64748b" "#10b981" "#eab308" "#ef4444"
        _ _ rad sh _ hp5 ha5, rfl, rfl, rfl, rfl, hvar⟩
  · subst htp
    exact ⟨_, _, generate_design_system_eq s a pp p5 ap a5 friendly_typography
        ["Nunito", "system-ui", "sans-serif"] "Nunito" friendly_sizes sp rad sh
        hp hp5 ha ha5 ht rfl rfl rfl hsp hr hsh,
      generate_shadcn_theme_eq pp p5 p5 ap a5 a5 "#64748b" "#10b981" "#eab308" "#ef4444"
        _ _ rad sh _ hp5 ha5, rfl, rfl, rfl, rfl, hvar⟩

theorem shadcn_total_witness :
    dlookup COLOR_PALETTES (finance_style.primary_color.getD "indigo") = some slate_palette ∧
    dlookup COLOR_PALETTES (finance_style.accent_color.getD "purple") = some emerald_palette ∧
    (∃ (ds : DesignSystem) (th : ShadcnTheme),
      generate_design_system finance_style emptyAssets = some ds ∧
      generate_shadcn_theme ds = some th ∧
      (ds.colors.find? fun c => c.name == "primary").isSome = true ∧
      (ds.colors.find? fun c => c.name == "accent").isSome = true ∧
      (ds.colors.find? fun c => c.name == "neutral").isSome = true ∧
      (ds.colors.get? 4).isSome = true ∧
      ∀ t ∈ ds.colors, ∀ k ∈ ["50", "100", "200", "500", "900", "950"],
        (dlookup t.variants k).isSome = true) :=
  ⟨rfl, rfl, shadcn_total finance_style emptyAssets slate_palette emerald_palette
    sans_typography ⟨PyNum.int 1, "1rem"⟩
    [("sm", "0.125rem"), ("DEFAULT", "0.25rem"), ("md", "0.375rem"),
     ("lg", "0.5rem"), ("xl", "0.75rem")]
    [("xs", "0 1px 2px 0 rgb(0 0 0 / 0.05)"),
     ("sm", "0 1px 3px 0 rgb(0 0 0 / 0.1), 0 1px 2px -1px rgb(0 0 0 / 0.1)")]
    rfl rfl rfl rfl rfl rfl⟩
